import Mathlib

/-!
Verification development for the quant repository's backtest engine
(`src/backtesting/backtest_engine.py`) and the moving-average crossover
strategy (`src/strategy/ma_cross_strategy.py`).

Prices and cash are modelled as exact rationals (`ℚ`).  A pandas frame is
modelled column-faithfully as a list of rows; pandas `NaN` entries are
modelled as `Option.none`.  The engine delegates order execution to
`vectorbt.Portfolio.from_signals`; that third-party simulation is embedded
as the sequential long-only state machine it implements for the exact
arguments the engine passes (`entries`/`exits` flags, explicit `price`
column, `init_cash`, fixed `size=100` with `size_type='amount'`,
multiplicative `slippage`, no fees, no shorting, no accumulation):
an entry flag opens a position of up to 100 shares when flat, an exit flag
closes the whole position when long, an order whose price entry is missing
(`NaN`, as produced at the series end by `Open.shift(-1)`) is ignored, and
the per-bar portfolio value is `cash + position * close`.
-/

namespace Quant

/-- Engine configuration, from `BacktestEngine.__init__`: the only
configurable fields are `initial_capital` (default 100000.0) and
`slippage` (default 0.001). -/
structure EngineConfig where
  initial_capital : ℚ := 100000
  slippage : ℚ := 1/1000
  deriving DecidableEq

/-- One row of the raw input frame handed to `BacktestEngine.run`.
OHLC cells are `Option ℚ` so that a pandas `NaN`/null cell is `none`.
The `signal` column is produced by a strategy and takes values in
`{1, 0, -1}` by convention (not enforced by the engine). -/
structure Row where
  open_ : Option ℚ
  high : Option ℚ
  low : Option ℚ
  close : Option ℚ
  signal : Int
  deriving DecidableEq

/-- The validation at the head of `BacktestEngine.run`:
`if df.empty or 'Open' not in df.columns or 'Close' not in df.columns or
'signal' not in df.columns: raise ValueError(...)`.
In this typed embedding every `Row` has the `Open`, `Close` and `signal`
fields, so the three column-membership tests always succeed and the check
reduces to the emptiness test.  No cell-level (null/NaN) check is
performed by the source. -/
def validatePasses (df : List Row) : Bool := !df.isEmpty

/-- A fully valid bar (all OHLC present), the substrate of the portfolio
simulation. -/
structure Bar where
  open_ : ℚ
  high : ℚ
  low : ℚ
  close : ℚ
  signal : Int
  deriving DecidableEq

/-- `long_entries = (df['signal'] == 1).shift(1, fill_value=False)` and
`long_exits = (df['signal'] == -1).shift(1, fill_value=False)`: a pandas
`shift(1)` with `False` fill prepends `False` and drops the last entry. -/
def shift1 : List Bool → List Bool
  | [] => []
  | x :: xs => false :: (x :: xs).dropLast

/-- `df['Open'].shift(-1)`: drop the first entry and append `NaN`. -/
def shiftNeg1 : List ℚ → List (Option ℚ)
  | [] => []
  | _ :: xs => xs.map some ++ [none]

/-- The `Open` column of the frame. -/
def openCol (df : List Bar) : List ℚ := df.map (·.open_)

/-- The `Close` column of the frame. -/
def closeCol (df : List Bar) : List ℚ := df.map (·.close)

/-- `long_entries` after the one-bar shift. -/
def entriesFlags (df : List Bar) : List Bool :=
  shift1 (df.map (fun b => b.signal == 1))

/-- `long_exits` after the one-bar shift. -/
def exitsFlags (df : List Bar) : List Bool :=
  shift1 (df.map (fun b => b.signal == -1))

/-- `next_open_prices = df['Open'].shift(-1)`, the per-bar execution price
column passed to `vectorbt.Portfolio.from_signals` as `price`. -/
def nextOpens (df : List Bar) : List (Option ℚ) := shiftNeg1 (openCol df)

/-- Order side. -/
inductive Side
  | buy
  | sell
  deriving DecidableEq

/-- An executed order as recorded by the portfolio simulation: its side,
its realized fill price (slippage included) and the filled quantity. -/
structure Fill where
  side : Side
  price : ℚ
  qty : ℚ
  deriving DecidableEq

/-- Portfolio running state: cash balance and held position. -/
structure PortState where
  cash : ℚ
  pos : ℚ
  deriving DecidableEq

/-- The order size the engine passes to the portfolio: the literal
constant `size=100` (`# 固定每次交易100股`).  It does not depend on the
configuration, which has no sizing field. -/
def orderSize (_cfg : EngineConfig) : ℚ := 100

/-- One bar of the `from_signals` simulation with the engine's arguments:
if the bar's price cell is missing the order (if any) is ignored; an entry
flag while flat buys up to `orderSize` shares at `price * (1 + slippage)`
(pro-rated down if cash does not cover the full size); an exit flag while
long sells the entire position at `price * (1 - slippage)`; anything else
leaves the state unchanged. -/
def stepBar (cfg : EngineConfig) (st : PortState) (entry exit_ : Bool)
    (price? : Option ℚ) : PortState × Option Fill :=
  match price? with
  | none => (st, none)
  | some p =>
    if entry && (st.pos == 0) then
      let fp := p * (1 + cfg.slippage)
      let q := min (orderSize cfg) (st.cash / fp)
      ({ cash := st.cash - q * fp, pos := st.pos + q }, some ⟨Side.buy, fp, q⟩)
    else if exit_ && (0 < st.pos) then
      let fp := p * (1 - cfg.slippage)
      ({ cash := st.cash + st.pos * fp, pos := 0 }, some ⟨Side.sell, fp, st.pos⟩)
    else (st, none)

/-- The per-bar simulation input: entry flag, exit flag and price cell. -/
def simRows (df : List Bar) : List (Bool × Bool × Option ℚ) :=
  (entriesFlags df).zip ((exitsFlags df).zip (nextOpens df))

/-- Sequential execution of the simulation, recording the state after each
bar together with the order (if any) executed at that bar. -/
def simAux (cfg : EngineConfig) :
    PortState → List (Bool × Bool × Option ℚ) → List (PortState × Option Fill)
  | _, [] => []
  | st, (e, x, p) :: rest =>
    let r := stepBar cfg st e x p
    r :: simAux cfg r.1 rest

/-- The whole simulation trace of a run. -/
def traceList (cfg : EngineConfig) (df : List Bar) : List (PortState × Option Fill) :=
  simAux cfg ⟨cfg.initial_capital, 0⟩ (simRows df)

/-- Per-bar portfolio state (cash, position) after each bar. -/
def stateList (cfg : EngineConfig) (df : List Bar) : List PortState :=
  (traceList cfg df).map (·.1)

/-- Per-bar executed order, `none` on bars with no execution. -/
def fillList (cfg : EngineConfig) (df : List Bar) : List (Option Fill) :=
  (traceList cfg df).map (·.2)

/-- `df['Capital'] = portfolio.value()`: vectorbt marks the portfolio to
market at each bar's close, `value = cash + position * close`. -/
def capitalList (cfg : EngineConfig) (df : List Bar) : List ℚ :=
  List.zipWith (fun st c => st.cash + st.pos * c) (stateList cfg df) (closeCol df)

/-- The `trade_price` column:
`df['trade_price'] = np.nan`,
`df.loc[long_entries, 'trade_price'] = next_open_prices * (1 + slippage)`,
`df.loc[long_exits, 'trade_price'] = next_open_prices * (1 - slippage)`. -/
def tradePriceCol (cfg : EngineConfig) (df : List Bar) : List (Option ℚ) :=
  List.zipWith
    (fun (ex : Bool × Bool) p? =>
      if ex.1 then p?.map (· * (1 + cfg.slippage))
      else if ex.2 then p?.map (· * (1 - cfg.slippage))
      else none)
    ((entriesFlags df).zip (exitsFlags df)) (nextOpens df)

/-- Running maximum helper. -/
def runningMaxAux (m : ℚ) : List ℚ → List ℚ
  | [] => []
  | x :: xs => max m x :: runningMaxAux (max m x) xs

/-- Running maximum of a series, `running_max(equity[0..t])`. -/
def runningMax : List ℚ → List ℚ
  | [] => []
  | x :: xs => x :: runningMaxAux x xs

/-- The vectorbt drawdown series `value / running_max(value) - 1`. -/
def drawdownList (vs : List ℚ) : List ℚ :=
  List.zipWith (fun v m => v / m - 1) vs (runningMax vs)

/-- Minimum of a series (the engine only takes it on non-empty series). -/
def listMin : List ℚ → ℚ
  | [] => 0
  | x :: xs => xs.foldl min x

/-- The computed part of the `results` dictionary assembled by
`BacktestEngine.run` (the `backtest_data` frame additionally echoes the
input columns verbatim; only the derived columns are modelled):
`total_return = portfolio.total_profit()` (final value minus initial
cash), `max_drawdown = portfolio.max_drawdown() * initial_capital`,
`final_capital = portfolio.value().iloc[-1]`. -/
structure RunResult where
  trade_price : List (Option ℚ)
  capital : List ℚ
  total_return : ℚ
  max_drawdown : ℚ
  final_capital : ℚ
  deriving DecidableEq

/-- `BacktestEngine.run` on an all-valid frame: `none` models the
`ValueError` raised on an empty frame, otherwise the assembled result. -/
def runFull (cfg : EngineConfig) (df : List Bar) : Option RunResult :=
  if df.isEmpty then none
  else
    let caps := capitalList cfg df
    let fin := caps.getLast?.getD cfg.initial_capital
    some
      { trade_price := tradePriceCol cfg df
        capital := caps
        total_return := fin - cfg.initial_capital
        max_drawdown := listMin (drawdownList caps) * cfg.initial_capital
        final_capital := fin }

/-- Replace the last bar's signal by `0` (Flat), leaving everything else
unchanged.  Used to state that a trailing signal leaves no trace. -/
def zeroLastSignal : List Bar → List Bar
  | [] => []
  | [b] => [{ b with signal := 0 }]
  | b :: b' :: rest => b :: zeroLastSignal (b' :: rest)

/-- `df['Close'].rolling(window=w).mean()` from
`MACrossStrategy.generate_signals`: entry `i` is the mean of the `w`
closes ending at `i`, or `NaN` (`none`) while fewer than `w` observations
exist (pandas' default `min_periods = window`; `w = 0` is not a valid
pandas window and yields all-`none` here). -/
def rollingMean (w : Nat) (xs : List ℚ) : List (Option ℚ) :=
  (List.range xs.length).map (fun i =>
    if w ≠ 0 ∧ w ≤ i + 1 then
      some ((((xs.drop (i + 1 - w)).take w).sum) / (w : ℚ))
    else none)

/-- The signal assignment of `MACrossStrategy.generate_signals`:
`df['signal'] = 0`; `df.loc[df[fast_ma] > df[slow_ma], 'signal'] = 1`;
`df.loc[df[fast_ma] < df[slow_ma], 'signal'] = -1`.  A pandas comparison
against `NaN` is `False`, so a bar where either mean is undefined keeps
the default `0`. -/
def maCompare : Option ℚ → Option ℚ → Int
  | some f, some s => if s < f then 1 else if f < s then -1 else 0
  | _, _ => 0

/-- The `signal` column produced by `MACrossStrategy.generate_signals`
for fast/slow rolling windows over the `Close` column. -/
def maSignal (fast slow : Nat) (closes : List ℚ) : List Int :=
  List.zipWith maCompare (rollingMean fast closes) (rollingMean slow closes)

/-! ### Concrete inputs used by the claim theorems -/

/-- A zero-slippage configuration with 10000 initial capital. -/
def cfg0 : EngineConfig := { initial_capital := 10000, slippage := 0 }

/-- The default configuration of `BacktestEngine.__init__`. -/
def cfgDefault : EngineConfig := {}

/-- Five bars with distinct opens `10,11,12,13,14` and an Enter-Long
signal on bar 0 only. -/
def dfC1 : List Bar :=
  [⟨10, 10, 10, 10, 1⟩, ⟨11, 11, 11, 11, 0⟩, ⟨12, 12, 12, 12, 0⟩,
   ⟨13, 13, 13, 13, 0⟩, ⟨14, 14, 14, 14, 0⟩]

/-- Five bars with opens `10,11,12,13,14`, Enter-Long on bar 0 and
Exit-Long on bar 2. -/
def dfC2 : List Bar :=
  [⟨10, 10, 10, 10, 1⟩, ⟨11, 11, 11, 11, 0⟩, ⟨12, 12, 12, 12, -1⟩,
   ⟨13, 13, 13, 13, 0⟩, ⟨14, 14, 14, 14, 0⟩]

/-- Three bars, constant open `10`, closes `10,10,20`, Enter-Long on
bar 0: the run ends worth 11000 from 10000. -/
def dfC4 : List Bar :=
  [⟨10, 10, 10, 10, 1⟩, ⟨10, 10, 10, 10, 0⟩, ⟨10, 10, 10, 20, 0⟩]

/-- Four bars, constant open `10`, closes `10,10,20,15`, Enter-Long on
bar 0: the equity curve is `10000,10000,11000,10500`. -/
def dfC5 : List Bar :=
  [⟨10, 10, 10, 10, 1⟩, ⟨10, 10, 10, 10, 0⟩, ⟨10, 10, 10, 20, 0⟩,
   ⟨10, 10, 10, 15, 0⟩]

/-- Three bars whose only non-Flat signal is an Enter-Long on the last
bar. -/
def dfC6 : List Bar :=
  [⟨10, 10, 10, 10, 0⟩, ⟨11, 11, 11, 11, 0⟩, ⟨12, 12, 12, 12, 1⟩]

/-- A raw input row whose `Open` cell is null while the other price cells
are present. -/
def nullOpenRow : Row := ⟨none, some 10, some 10, some 10, 0⟩

/-! ### Claim theorems -/

/-- Claim C1, evidence of divergence: on `dfC1` the Enter-Long signal
observed at bar 0 produces exactly one order, placed at bar 1, but its
realized fill price is `12` — the open of bar 2 — and not bar 1's open
`11` (slippage is zero here).  Because of the combined
`shift(1)` on the signals and `shift(-1)` on the price column, the order
effective at bar `i+1` fills at bar `i+2`'s open, contradicting the
claimed fill at bar `i+1`'s open (and the code's own comments: today's
signal, executed tomorrow, at the next trading day's open). -/
theorem c1_fill_uses_bar_two_after_signal :
    fillList cfg0 dfC1 = [none, some ⟨Side.buy, 12, 100⟩, none, none, none] ∧
    openCol dfC1 = [10, 11, 12, 13, 14] ∧ (12 : ℚ) ≠ 11 := by
  refine ⟨?_, ?_, ?_⟩ <;>
    norm_num [fillList, traceList, simAux, simRows, stepBar, entriesFlags, exitsFlags,
      nextOpens, openCol, shift1, shiftNeg1, cfg0, dfC1, orderSize]

/-- Claim C2, evidence of divergence: with the default slippage `0.001`,
on `dfC2` the buy order effective at bar 1 fills at `12 * 1.001` (bar 2's
open with slippage) rather than `11 * 1.001` (bar 1's open with
slippage), and the sell order effective at bar 3 fills at `14 * 0.999`
(bar 4's open) rather than `13 * 0.999`.  The slippage factors
`(1 + slippage)` for buys and `(1 - slippage)` for sells are applied as
claimed, but to the open of the bar after the effective bar. -/
theorem c2_fill_price_not_effective_bar_open :
    fillList cfgDefault dfC2 =
      [none, some ⟨Side.buy, 12 * (1 + 1/1000), 100⟩, none,
       some ⟨Side.sell, 14 * (1 - 1/1000), 100⟩, none] ∧
    (12 * (1 + 1/1000) : ℚ) ≠ 11 * (1 + 1/1000) ∧
    (14 * (1 - 1/1000) : ℚ) ≠ 13 * (1 - 1/1000) := by
  refine ⟨?_, ?_, ?_⟩ <;>
    norm_num [fillList, traceList, simAux, simRows, stepBar, entriesFlags, exitsFlags,
      nextOpens, openCol, shift1, shiftNeg1, cfgDefault, dfC2, orderSize]

/-- Claim C3, counterexample: the engine's configuration surface
(`EngineConfig`, mirroring `BacktestEngine.__init__`) has no
position-sizing option at all — neither `fixed_shares` nor
`fraction_of_equity` — and the order quantity passed to the portfolio
does not vary with the configuration: no two configurations yield
different order sizes. -/
theorem c3_order_size_constant_counterexample :
    ¬ ∃ c₁ c₂ : EngineConfig, orderSize c₁ ≠ orderSize c₂ := by
  rintro ⟨c₁, c₂, h⟩
  exact h rfl

/-- Claim C3, amended: for every configuration the order quantity is the
hard-coded constant `100` shares (`size=100` in the source); the
configuration surface offers only `initial_capital` and `slippage`. -/
theorem c3_order_size_always_100 : ∀ cfg : EngineConfig, orderSize cfg = 100 :=
  fun _ => rfl

/-- Claim C4, evidence of divergence: on `dfC4` the equity curve is
`[10000, 10000, 11000]`, so the claimed `equity[last]/equity[0] - 1`
would be `1/10`, but the reported `total_return` is
`portfolio.total_profit() = 1000`, the absolute profit
`equity[last] - equity[0]`, not the fractional return. -/
theorem c4_total_return_is_absolute_profit :
    (runFull cfg0 dfC4).map (·.total_return) = some 1000 ∧
    (runFull cfg0 dfC4).map (·.capital) = some [10000, 10000, 11000] ∧
    (1000 : ℚ) ≠ 11000 / 10000 - 1 := by
  refine ⟨?_, ?_, ?_⟩ <;>
    norm_num [runFull, capitalList, stateList, traceList, simAux, simRows, stepBar,
      entriesFlags, exitsFlags, nextOpens, openCol, closeCol, shift1, shiftNeg1,
      List.getLast?, listMin, drawdownList, runningMax, runningMaxAux, tradePriceCol,
      cfg0, dfC4, orderSize]

/-- Claim C5, evidence of divergence: on `dfC5` the equity curve is
`[10000, 10000, 11000, 10500]` whose minimum fractional drawdown is
`-1/22`, but the reported `max_drawdown` is
`portfolio.max_drawdown() * initial_capital = -5000/11`, a currency
amount, not the fraction the claim states. -/
theorem c5_max_drawdown_scaled_by_capital :
    (runFull cfg0 dfC5).map (·.max_drawdown) = some (-5000/11) ∧
    (runFull cfg0 dfC5).map (·.capital) = some [10000, 10000, 11000, 10500] ∧
    listMin (drawdownList [10000, 10000, 11000, 10500]) = -1/22 ∧
    (-5000/11 : ℚ) ≠ -1/22 := by
  refine ⟨?_, ?_, ?_, ?_⟩ <;>
    norm_num [runFull, capitalList, stateList, traceList, simAux, simRows, stepBar,
      entriesFlags, exitsFlags, nextOpens, openCol, closeCol, shift1, shiftNeg1,
      List.getLast?, listMin, drawdownList, runningMax, runningMaxAux, tradePriceCol,
      cfg0, dfC5, orderSize]

/-- Claim C6, counterexample to the reporting half: on `dfC6`, whose last
bar carries an Enter-Long signal, no order is ever executed, and the
run's entire computed result is identical to that of the same frame with
the trailing signal replaced by Flat — the drop leaves no trace anywhere
in the output, so it is silently lost, not reported in any diagnostics
(the assembled `results` dictionary has no diagnostics entry). -/
theorem c6_trailing_signal_counterexample :
    fillList cfg0 dfC6 = [none, none, none] ∧
    runFull cfg0 dfC6 = runFull cfg0 (zeroLastSignal dfC6) := by
  refine ⟨?_, ?_⟩ <;>
    norm_num [runFull, capitalList, stateList, fillList, traceList, simAux, simRows,
      stepBar, entriesFlags, exitsFlags, nextOpens, openCol, closeCol, shift1, shiftNeg1,
      List.getLast?, listMin, drawdownList, runningMax, runningMaxAux, tradePriceCol,
      cfg0, dfC6, zeroLastSignal, orderSize]

/-- Claim C7, counterexample: a one-row frame whose `Open` cell is null
passes the engine's validation — the source checks only that the frame is
non-empty and has the `Open`/`Close`/`signal` columns, never the cell
values, and the error it can raise is an untyped `ValueError`, not
`InvalidBarData`. -/
theorem c7_null_open_passes_validation :
    validatePasses [nullOpenRow] = true ∧ nullOpenRow.open_ = none :=
  ⟨rfl, rfl⟩

/-- Claim C7, amended: every non-empty frame passes the engine's
validation, null OHLC cells notwithstanding; the only rejected input is
an empty frame (or one missing the `Open`/`Close`/`signal` columns, which
is type-level here), rejected with an untyped `ValueError`. -/
theorem c7_validation_checks_emptiness_only :
    ∀ df : List Row, df ≠ [] → validatePasses df = true := by
  intro df h
  cases df with
  | nil => exact absurd rfl h
  | cons a l => rfl

/-- Witness for `c7_validation_checks_emptiness_only` at the concrete
frame `[nullOpenRow]`. -/
theorem c7_validation_checks_emptiness_only_witness :
    validatePasses [nullOpenRow] = true :=
  c7_validation_checks_emptiness_only [nullOpenRow] (List.cons_ne_nil _ _)

/-- Claim C8: the run is deterministic — it is a pure function of the
configuration and the input frame (the embedding is total and
side-effect-free, as is the source computation, whose only effects are
`print` calls that do not feed back into the result), so two runs on
identical input yield identical results and identical executed orders. -/
theorem c8_run_deterministic :
    ∀ (cfg : EngineConfig) (df₁ df₂ : List Bar), df₁ = df₂ →
      runFull cfg df₁ = runFull cfg df₂ ∧ fillList cfg df₁ = fillList cfg df₂ := by
  intro cfg df₁ df₂ h
  subst h
  exact ⟨rfl, rfl⟩

/-- Witness for `c8_run_deterministic` at the concrete input `dfC2` with
the default configuration. -/
theorem c8_run_deterministic_witness :
    runFull cfgDefault dfC2 = runFull cfgDefault dfC2 ∧
    fillList cfgDefault dfC2 = fillList cfgDefault dfC2 :=
  c8_run_deterministic cfgDefault dfC2 dfC2 rfl

/-- `zeroLastSignal` of a non-empty list is a cons. -/
theorem zls_cons_shape (a : Bar) (l : List Bar) :
    ∃ c cs, zeroLastSignal (a :: l) = c :: cs := by
  cases l with
  | nil => exact ⟨{ a with signal := 0 }, [], rfl⟩
  | cons b bs => exact ⟨a, zeroLastSignal (b :: bs), rfl⟩

/-- `zeroLastSignal` preserves the length. -/
theorem zls_length : ∀ df : List Bar, (zeroLastSignal df).length = df.length
  | [] => rfl
  | [_] => rfl
  | _ :: b' :: rest => by
    simp only [zeroLastSignal, List.length_cons]
    exact congrArg (· + 1) (zls_length (b' :: rest))

/-- `zeroLastSignal` preserves emptiness. -/
theorem zls_isEmpty (df : List Bar) :
    (zeroLastSignal df).isEmpty = df.isEmpty := by
  cases df with
  | nil => rfl
  | cons a l =>
    obtain ⟨c, cs, h⟩ := zls_cons_shape a l
    rw [h]
    rfl

/-- Mapping a signal-independent projection over `zeroLastSignal` changes
nothing. -/
theorem zls_map (f : Bar → α) (hf : ∀ b, f { b with signal := 0 } = f b) :
    ∀ df : List Bar, (zeroLastSignal df).map f = df.map f
  | [] => rfl
  | [b] => by simp [zeroLastSignal, hf b]
  | b :: b' :: rest => by
    simp only [zeroLastSignal, List.map_cons]
    exact congrArg (f b :: ·) (zls_map f hf (b' :: rest))

/-- Mapping any projection over `zeroLastSignal` agrees with the original
everywhere but the last position. -/
theorem zls_map_dropLast (f : Bar → α) :
    ∀ df : List Bar,
      ((zeroLastSignal df).map f).dropLast = (df.map f).dropLast
  | [] => rfl
  | [_] => rfl
  | b :: b' :: rest => by
    obtain ⟨c, cs, hshape⟩ := zls_cons_shape b' rest
    have ih := zls_map_dropLast f (b' :: rest)
    rw [hshape] at ih
    simp only [zeroLastSignal, List.map_cons, hshape]
    show f b :: (f c :: cs.map f).dropLast = f b :: (f b' :: rest.map f).dropLast
    rw [← List.map_cons f c cs, ih, List.map_cons f b' rest]

/-- Two boolean lists of the same length with the same `dropLast` have the
same one-bar shift (the shift discards the last entry). -/
theorem shift1_congr :
    ∀ l l' : List Bool, l.length = l'.length → l.dropLast = l'.dropLast →
      shift1 l = shift1 l'
  | [], [], _, _ => rfl
  | [], _ :: _, h, _ => by simp at h
  | _ :: _, [], h, _ => by simp at h
  | a :: as, b :: bs, _, hd => by
    simp only [shift1]
    rw [hd]

/-- The shifted entry flags ignore the last bar's signal. -/
theorem entriesFlags_zls (df : List Bar) :
    entriesFlags (zeroLastSignal df) = entriesFlags df := by
  unfold entriesFlags
  apply shift1_congr
  · simp [zls_length df]
  · exact zls_map_dropLast (fun b => b.signal == 1) df

/-- The shifted exit flags ignore the last bar's signal. -/
theorem exitsFlags_zls (df : List Bar) :
    exitsFlags (zeroLastSignal df) = exitsFlags df := by
  unfold exitsFlags
  apply shift1_congr
  · simp [zls_length df]
  · exact zls_map_dropLast (fun b => b.signal == -1) df

/-- The `Open` column ignores the signal column. -/
theorem openCol_zls (df : List Bar) :
    openCol (zeroLastSignal df) = openCol df :=
  zls_map (fun b => b.open_) (fun _ => rfl) df

/-- The `Close` column ignores the signal column. -/
theorem closeCol_zls (df : List Bar) :
    closeCol (zeroLastSignal df) = closeCol df :=
  zls_map (fun b => b.close) (fun _ => rfl) df

/-- Claim C6, amended: a non-Flat signal on the last bar generates no
executable order and is silently dropped — for every configuration and
every frame, replacing the last bar's signal by Flat changes neither the
computed run result (trade prices, capital curve, total return, max
drawdown, final capital) nor the list of executed orders, so the trailing
signal leaves no trace and in particular no diagnostics report it. -/
theorem c6_trailing_signal_silently_dropped :
    ∀ (cfg : EngineConfig) (df : List Bar),
      runFull cfg (zeroLastSignal df) = runFull cfg df ∧
      fillList cfg (zeroLastSignal df) = fillList cfg df := by
  intro cfg df
  have h1 := entriesFlags_zls df
  have h2 := exitsFlags_zls df
  have h3 := openCol_zls df
  have h4 := closeCol_zls df
  have h5 := zls_isEmpty df
  constructor <;>
    simp only [runFull, fillList, traceList, stateList, capitalList, tradePriceCol,
      simRows, nextOpens, h1, h2, h3, h4, h5]

/-- Claim C9: for every recorded bar `t` of every run, the recorded
capital (`portfolio.value()`) equals `cash[t] + position[t] * close[t]` —
exactly, since the embedding computes in `ℚ`, hence in particular within
any relative floating-point tolerance. -/
theorem c9_equity_identity :
    ∀ (cfg : EngineConfig) (df : List Bar) (t : Nat) (st : PortState) (b : Bar),
      (stateList cfg df).get? t = some st → df.get? t = some b →
      (capitalList cfg df).get? t = some (st.cash + st.pos * b.close) := by
  intro cfg df t st b hst hb
  have hc : (closeCol df).get? t = some b.close := by
    rw [closeCol, List.get?_map, hb]
    rfl
  rw [capitalList, List.get?_zipWith_eq_some]
  exact ⟨st, b.close, hst, hc, rfl⟩

/-- Witness for `c9_equity_identity`: bar 2 of the `dfC4` run, where the
state is `(cash, position) = (9000, 100)` and the close is `20`. -/
theorem c9_equity_identity_witness :
    (capitalList cfg0 dfC4).get? 2 = some ((9000 : ℚ) + 100 * 20) :=
  c9_equity_identity cfg0 dfC4 2 ⟨9000, 100⟩ ⟨10, 10, 10, 20, 0⟩
    (by norm_num [stateList, traceList, simAux, simRows, stepBar, entriesFlags,
      exitsFlags, nextOpens, openCol, shift1, shiftNeg1, cfg0, dfC4, orderSize,
      List.get?])
    (by norm_num [dfC4, List.get?])

/-- `rollingMean` produces one cell per input bar. -/
theorem rollingMean_length (w : Nat) (xs : List ℚ) :
    (rollingMean w xs).length = xs.length := by
  simp [rollingMean]

/-- `maCompare` only takes the values `1`, `0`, `-1`. -/
theorem maCompare_cases (a b : Option ℚ) :
    maCompare a b = 1 ∨ maCompare a b = 0 ∨ maCompare a b = -1 := by
  cases a with
  | none => cases b <;> simp [maCompare]
  | some f =>
    cases b with
    | none => simp [maCompare]
    | some s =>
      simp only [maCompare]
      split_ifs <;> simp

/-- `maCompare` is `1` exactly when both means exist and the fast one is
strictly greater. -/
theorem maCompare_eq_one_iff (a b : Option ℚ) :
    maCompare a b = 1 ↔ ∃ fv sv, a = some fv ∧ b = some sv ∧ sv < fv := by
  cases a with
  | none => cases b <;> simp [maCompare]
  | some f =>
    cases b with
    | none => simp [maCompare]
    | some s =>
      simp only [maCompare]
      split_ifs with h1 h2
      · simp only [true_iff]
        exact ⟨f, s, rfl, rfl, h1⟩
      · constructor
        · intro h
          exact absurd h (by decide)
        · rintro ⟨fv, sv, hfv, hsv, hlt⟩
          cases hfv
          cases hsv
          exact absurd hlt h1
      · constructor
        · intro h
          exact absurd h (by decide)
        · rintro ⟨fv, sv, hfv, hsv, hlt⟩
          cases hfv
          cases hsv
          exact absurd hlt h1

/-- `maCompare` is `-1` exactly when both means exist and the fast one is
strictly smaller. -/
theorem maCompare_eq_negOne_iff (a b : Option ℚ) :
    maCompare a b = -1 ↔ ∃ fv sv, a = some fv ∧ b = some sv ∧ fv < sv := by
  cases a with
  | none => cases b <;> simp [maCompare]
  | some f =>
    cases b with
    | none => simp [maCompare]
    | some s =>
      simp only [maCompare]
      split_ifs with h1 h2
      · constructor
        · intro h
          exact absurd h (by decide)
        · rintro ⟨fv, sv, hfv, hsv, hlt⟩
          cases hfv
          cases hsv
          exact absurd hlt (lt_asymm h1)
      · simp only [true_iff]
        exact ⟨f, s, rfl, rfl, h2⟩
      · constructor
        · intro h
          exact absurd h (by decide)
        · rintro ⟨fv, sv, hfv, hsv, hlt⟩
          cases hfv
          cases hsv
          exact absurd hlt h2

/-- Claim C10: `MACrossStrategy.generate_signals` assigns exactly one
signal per input bar; the signal is always in `{1, 0, -1}`, equals `1`
exactly when both rolling means are defined at that bar and the fast mean
strictly exceeds the slow mean, and equals `-1` exactly when both are
defined and the fast mean is strictly below the slow mean — so every
other bar, including the initial bars where a rolling mean is undefined,
carries `0`, and the column encodes sustained state on every bar rather
than crossover events. -/
theorem c10_ma_signal_sustained_state :
    ∀ (fast slow : Nat) (closes : List ℚ),
      (maSignal fast slow closes).length = closes.length ∧
      ∀ (i : Nat) (s : Int), (maSignal fast slow closes).get? i = some s →
        (s = 1 ∨ s = 0 ∨ s = -1) ∧
        (s = 1 ↔ ∃ fv sv, (rollingMean fast closes).get? i = some (some fv) ∧
            (rollingMean slow closes).get? i = some (some sv) ∧ sv < fv) ∧
        (s = -1 ↔ ∃ fv sv, (rollingMean fast closes).get? i = some (some fv) ∧
            (rollingMean slow closes).get? i = some (some sv) ∧ fv < sv) := by
  intro fast slow closes
  constructor
  · rw [maSignal, List.length_zipWith, rollingMean_length, rollingMean_length]
    exact min_self _
  · intro i s h
    rw [maSignal, List.get?_zipWith_eq_some] at h
    obtain ⟨x, y, hx, hy, hs⟩ := h
    subst hs
    refine ⟨maCompare_cases x y, ?_, ?_⟩
    · rw [maCompare_eq_one_iff]
      constructor
      · rintro ⟨fv, sv, hxf, hys, hlt⟩
        subst hxf
        subst hys
        exact ⟨fv, sv, hx, hy, hlt⟩
      · rintro ⟨fv, sv, h1, h2, hlt⟩
        rw [hx] at h1
        rw [hy] at h2
        injection h1 with h1
        injection h2 with h2
        exact ⟨fv, sv, h1, h2, hlt⟩
    · rw [maCompare_eq_negOne_iff]
      constructor
      · rintro ⟨fv, sv, hxf, hys, hlt⟩
        subst hxf
        subst hys
        exact ⟨fv, sv, hx, hy, hlt⟩
      · rintro ⟨fv, sv, h1, h2, hlt⟩
        rw [hx] at h1
        rw [hy] at h2
        injection h1 with h1
        injection h2 with h2
        exact ⟨fv, sv, h1, h2, hlt⟩

/-- Witness for `c10_ma_signal_sustained_state` on the concrete series
`[1,2,3,4]` with windows `1` and `2`, where the produced signal column is
`[0,1,1,1]`. -/
theorem c10_ma_signal_sustained_state_witness :
    (maSignal 1 2 [(1 : ℚ), 2, 3, 4]).length = [(1 : ℚ), 2, 3, 4].length ∧
    ((1 : Int) = 1 ∨ (1 : Int) = 0 ∨ (1 : Int) = -1) :=
  ⟨(c10_ma_signal_sustained_state 1 2 [(1 : ℚ), 2, 3, 4]).1,
    ((c10_ma_signal_sustained_state 1 2 [(1 : ℚ), 2, 3, 4]).2 1 1
      (by norm_num [maSignal, maCompare, rollingMean, List.range, List.range.loop,
        List.get?])).1⟩

end Quant
